import Mathlib

/-!
Shallow embedding of the repository's three Python source files: the Flask
job endpoint (src/app.py) and the two interactive greeting scripts
(src/hello.py and src/hello_second.py).  Python strings are modelled as
`List Char`; `str` lifts a Lean string literal into that model.
-/

/-- Lift a string literal into the `List Char` model of Python strings. -/
def str (s : String) : List Char := s.data

namespace Py

/-- The characters Python's `str.strip()` removes: the code points for which
`str.isspace()` holds (ASCII whitespace and separator controls, NEL, NBSP and
the Unicode space/line/paragraph separators). -/
def isSpaceChar (c : Char) : Bool :=
  decide ((9 ≤ c.toNat ∧ c.toNat ≤ 13) ∨ c.toNat = 32 ∨ (28 ≤ c.toNat ∧ c.toNat ≤ 31) ∨
    c.toNat = 133 ∨ c.toNat = 160 ∨ c.toNat = 5760 ∨
    (8192 ≤ c.toNat ∧ c.toNat ≤ 8202) ∨ c.toNat = 8232 ∨ c.toNat = 8233 ∨
    c.toNat = 8239 ∨ c.toNat = 8287 ∨ c.toNat = 12288)

/-- Python `s.strip()` on the list-of-characters model: remove leading and
trailing whitespace. -/
def strip (l : List Char) : List Char :=
  ((l.dropWhile isSpaceChar).reverse.dropWhile isSpaceChar).reverse

/-- Python `s.lower()` on the list-of-characters model.  `Char.toLower`
agrees with `str.lower` on the ASCII range; every phrase, keyword and
pattern in the sources is ASCII. -/
def lower (l : List Char) : List Char := l.map Char.toLower

end Py

/-- Model of `normalize_input` (defined identically in src/hello.py lines
16-20 and src/hello_second.py lines 16-20): `user_input.strip().lower()`.
The `user_input is None` guard of the source returns the empty string and is
unreachable from callers, which always pass a `str`. -/
def normalize_input (user_input : List Char) : List Char :=
  Py.lower (Py.strip user_input)

/-- Characters below the surrogate range round-trip through `Char.ofNat`. -/
theorem char_toNat_ofNat_of_lt (n : Nat) (h : n < 55296) : (Char.ofNat n).toNat = n := by
  have hv : n.isValidChar := Or.inl h
  rw [Char.ofNat, dif_pos hv]
  rfl

/-- Unicode scalar values are below 0x110000. -/
theorem char_toNat_lt (c : Char) : c.toNat < 1114112 := by
  rcases c.valid with h | ⟨_, h⟩
  · exact Nat.lt_trans h (by decide)
  · exact h

/-- `Char.toLower` is idempotent. -/
theorem toLower_toLower (c : Char) : Char.toLower (Char.toLower c) = Char.toLower c := by
  unfold Char.toLower
  by_cases h : Char.toNat c ≥ 65 ∧ Char.toNat c ≤ 90
  · rw [if_pos h]
    have h32 : (Char.ofNat (Char.toNat c + 32)).toNat = Char.toNat c + 32 :=
      char_toNat_ofNat_of_lt _ (by omega)
    rw [h32, if_neg (by omega)]
  · rw [if_neg h, if_neg h]

/-- Lowercasing does not change whether a character is Python whitespace. -/
theorem isSpaceChar_toLower (c : Char) :
    Py.isSpaceChar (Char.toLower c) = Py.isSpaceChar c := by
  unfold Char.toLower
  by_cases h : Char.toNat c ≥ 65 ∧ Char.toNat c ≤ 90
  · rw [if_pos h]
    have h32 : (Char.ofNat (Char.toNat c + 32)).toNat = Char.toNat c + 32 :=
      char_toNat_ofNat_of_lt _ (by omega)
    unfold Py.isSpaceChar
    rw [h32, decide_eq_decide]
    omega
  · rw [if_neg h]

/-- Dropping while a predicate holds is idempotent. -/
theorem dropWhile_self {α : Type} (p : α → Bool) (l : List α) :
    List.dropWhile p (List.dropWhile p l) = List.dropWhile p l := by
  induction l with
  | nil => rfl
  | cons a t ih =>
    rw [List.dropWhile_cons]
    split
    · exact ih
    · rename_i h
      rw [List.dropWhile_cons, if_neg h]

/-- The head surviving `dropWhile p` fails `p`. -/
theorem head?_dropWhile_not {α : Type} (p : α → Bool) (m : List α) :
    ∀ x, (m.dropWhile p).head? = some x → p x = false := by
  induction m with
  | nil => intro x hx; simp [List.dropWhile] at hx
  | cons a t ih =>
    intro x hx
    rw [List.dropWhile_cons] at hx
    split at hx
    · exact ih x hx
    · rename_i h
      cases hx
      exact Bool.eq_false_iff.mpr h

/-- A nonempty `dropWhile` result keeps the last element of the list. -/
theorem getLast?_dropWhile {α : Type} (p : α → Bool) (m : List α)
    (h : m.dropWhile p ≠ []) : (m.dropWhile p).getLast? = m.getLast? := by
  obtain ⟨t, ht⟩ := List.dropWhile_suffix (l := m) p
  conv_rhs => rw [← ht]
  rw [List.getLast?_append]
  cases hl : (m.dropWhile p).getLast? with
  | none => exact absurd (List.getLast?_eq_none_iff.mp hl) h
  | some x => rfl

/-- A list whose head and last elements fail `p` is untouched by
`dropWhile p` on either end. -/
theorem dropWhile_eq_self_of_head {α : Type} (p : α → Bool) (l : List α)
    (h : ∀ x, l.head? = some x → p x = false) : l.dropWhile p = l := by
  cases l with
  | nil => rfl
  | cons a t =>
    rw [List.dropWhile_cons, if_neg]
    simp [h a rfl]

/-- The last character surviving `Py.strip` is not whitespace. -/
theorem strip_getLast_not (l : List Char) :
    ∀ x, (Py.strip l).getLast? = some x → Py.isSpaceChar x = false := by
  intro x hx
  unfold Py.strip at hx
  rw [List.getLast?_reverse] at hx
  exact head?_dropWhile_not _ _ x hx

/-- The first character surviving `Py.strip` is not whitespace. -/
theorem strip_head_not (l : List Char) :
    ∀ x, (Py.strip l).head? = some x → Py.isSpaceChar x = false := by
  intro x hx
  unfold Py.strip at hx
  rw [List.head?_reverse] at hx
  have hne : (l.dropWhile Py.isSpaceChar).reverse.dropWhile Py.isSpaceChar ≠ [] := by
    intro hnil
    rw [hnil] at hx
    exact Option.noConfusion hx
  rw [getLast?_dropWhile _ _ hne, List.getLast?_reverse] at hx
  exact head?_dropWhile_not _ _ x hx

/-- A list whose two ends are not whitespace is left unchanged by `Py.strip`. -/
theorem strip_eq_self (l : List Char)
    (h1 : ∀ x, l.head? = some x → Py.isSpaceChar x = false)
    (h2 : ∀ x, l.getLast? = some x → Py.isSpaceChar x = false) : Py.strip l = l := by
  unfold Py.strip
  rw [dropWhile_eq_self_of_head _ _ h1]
  rw [dropWhile_eq_self_of_head _ _ (by rw [List.head?_reverse]; exact h2)]
  exact List.reverse_reverse l

/-- Stripping is idempotent. -/
theorem strip_strip (l : List Char) : Py.strip (Py.strip l) = Py.strip l :=
  strip_eq_self _ (strip_head_not l) (strip_getLast_not l)

/-- Stripping commutes with lowercasing. -/
theorem strip_lower (l : List Char) : Py.strip (Py.lower l) = Py.lower (Py.strip l) := by
  have hdw : ∀ m : List Char,
      List.dropWhile Py.isSpaceChar (List.map Char.toLower m)
        = List.map Char.toLower (List.dropWhile Py.isSpaceChar m) := by
    intro m
    rw [List.dropWhile_map,
      show (Py.isSpaceChar ∘ Char.toLower) = Py.isSpaceChar from funext isSpaceChar_toLower]
  unfold Py.strip Py.lower
  rw [hdw l, ← List.map_reverse, hdw, ← List.map_reverse]

/-- Lowercasing is idempotent. -/
theorem lower_lower (l : List Char) : Py.lower (Py.lower l) = Py.lower l := by
  unfold Py.lower
  rw [List.map_map]
  exact List.map_congr_left fun c _ => toLower_toLower c

/-- Lowercasing a normalized string changes nothing. -/
theorem lower_normalize (l : List Char) :
    Py.lower (normalize_input l) = normalize_input l := by
  unfold normalize_input
  exact lower_lower _

/-- The last character of a normalized string is never whitespace. -/
theorem normalize_getLast_not (l : List Char) :
    ∀ x, (normalize_input l).getLast? = some x → Py.isSpaceChar x = false := by
  intro x hx
  unfold normalize_input Py.lower at hx
  rw [List.getLast?_map] at hx
  cases hl : (Py.strip l).getLast? with
  | none => rw [hl] at hx; exact Option.noConfusion hx
  | some y =>
    rw [hl] at hx
    cases hx
    rw [isSpaceChar_toLower]
    exact strip_getLast_not l y hl

/-- Lowercasing keeps an ASCII character in the ASCII range. -/
theorem toLower_lt_128 {c : Char} (h : c.toNat < 128) : (Char.toLower c).toNat < 128 := by
  unfold Char.toLower
  by_cases hcase : Char.toNat c ≥ 65 ∧ Char.toNat c ≤ 90
  · rw [if_pos hcase, char_toNat_ofNat_of_lt _ (by omega)]
    omega
  · rw [if_neg hcase]
    exact h

/-- Stripping only removes characters. -/
theorem strip_subset (l : List Char) : ∀ c ∈ Py.strip l, c ∈ l := by
  intro c hc
  unfold Py.strip at hc
  rw [List.mem_reverse] at hc
  have h1 := (List.dropWhile_suffix (l := (l.dropWhile Py.isSpaceChar).reverse)
    Py.isSpaceChar).subset hc
  rw [List.mem_reverse] at h1
  exact (List.dropWhile_suffix Py.isSpaceChar).subset h1

/-- Normalizing an ASCII string yields an ASCII string. -/
theorem normalize_ascii {s : List Char} (h : ∀ c ∈ s, c.toNat < 128) :
    ∀ c ∈ normalize_input s, c.toNat < 128 := by
  intro c hc
  unfold normalize_input Py.lower at hc
  obtain ⟨c', hc', rfl⟩ := List.mem_map.mp hc
  exact toLower_lt_128 (h c' (strip_subset s c' hc'))

/-- One atom of the regular expressions used by `is_hello_command`: a literal
character, or an optional character (`?` applied to one escaped literal, as
in the pattern `^what\'?s up$` of src/hello_second.py). -/
inductive RAtom : Type
  | lit (c : Char)
  | opt (c : Char)
deriving DecidableEq

/-- One pattern literal under `re.IGNORECASE`, as CPython's sre engine
(Python 3.7+) matches it against an input character: the input character is
simple-lowercased and compared with the literal's lowercase, and a literal
whose lowercase is i, s or k further admits the Unicode case equivalents
arising from sre's `_equivalences` table and from simple lowercasing:
İ (U+0130) and dotless ı (U+0131) for i, long ſ (U+017F) for s, and the
Kelvin sign K (U+212A) for k.  For every pattern character the sources use
(lowercase ASCII letters, space, apostrophe) these are exactly the input
characters `re` accepts, checked against CPython 3.11 over all of Unicode;
no other code point simple-lowercases into this alphabet. -/
def charCI (p d : Char) : Bool :=
  if p.toNat = 105 then
    decide (d.toNat = 105 ∨ d.toNat = 73 ∨ d.toNat = 304 ∨ d.toNat = 305)
  else if p.toNat = 115 then
    decide (d.toNat = 115 ∨ d.toNat = 83 ∨ d.toNat = 383)
  else if p.toNat = 107 then
    decide (d.toNat = 107 ∨ d.toNat = 75 ∨ d.toNat = 8490)
  else
    Char.toLower p == Char.toLower d

/-- Whether `$` (without `re.MULTILINE`) matches the rest of the input: it
matches at the end of the string or just before one final newline. -/
def dollar : List Char → Bool
  | [] => true
  | [c] => c == Char.ofNat 10
  | _ :: _ :: _ => false

/-- Matching a pattern body (the atoms between `^` and `$`) against the
input, as `re.match` does: the leading `^` is the anchoring that `re.match`
performs anyway, the closing `$` is `dollar`, a literal consumes one
case-insensitively equal character, and `x?` matches with or without
consuming a character. -/
def reMatch : List RAtom → List Char → Bool
  | [], s => dollar s
  | RAtom.lit _ :: _, [] => false
  | RAtom.lit c :: ps, d :: s => charCI c d && reMatch ps s
  | RAtom.opt _ :: ps, [] => reMatch ps []
  | RAtom.opt c :: ps, d :: s => (charCI c d && reMatch ps s) || reMatch ps (d :: s)

/-- The pattern body of `^w$` for a literal phrase `w`. -/
def lits (s : String) : List RAtom := s.data.map RAtom.lit

/-- The finitely many character sequences a pattern body can consume,
obtained by expanding every optional atom both ways. -/
def expand : List RAtom → List (List Char)
  | [] => [[]]
  | RAtom.lit c :: ps => (expand ps).map (c :: ·)
  | RAtom.opt c :: ps => (expand ps).map (c :: ·) ++ expand ps

/-- Matching one candidate literal sequence, with the `$` rule at its end. -/
def ciMatchDollar : List Char → List Char → Bool
  | [], s => dollar s
  | _ :: _, [] => false
  | c :: w, d :: s => charCI c d && ciMatchDollar w s

/-- A conjunction with a constant distributes out of `List.any`. -/
theorem any_and_const {α : Type} (b : Bool) (f : α → Bool) (l : List α) :
    (l.any fun w => b && f w) = (b && l.any f) := by
  cases b
  · simp
  · simp

/-- Congruence for `List.any` under pointwise agreement on members. -/
theorem any_congr_mem {α : Type} {f g : α → Bool} {l : List α}
    (h : ∀ a ∈ l, f a = g a) : l.any f = l.any g := by
  induction l with
  | nil => rfl
  | cons a t ih =>
    rw [List.any_cons, List.any_cons, h a (List.mem_cons_self a t),
      ih fun x hx => h x (List.mem_cons_of_mem a hx)]

/-- A pattern body matches exactly when one of its expansions matches
literally. -/
theorem reMatch_expand (ps : List RAtom) (s : List Char) :
    reMatch ps s = (expand ps).any fun w => ciMatchDollar w s := by
  induction ps generalizing s with
  | nil => simp [reMatch, expand, ciMatchDollar]
  | cons a ps ih =>
    cases a with
    | lit c =>
      cases s with
      | nil => simp [reMatch, expand, List.any_map, Function.comp, ciMatchDollar]
      | cons d s' =>
        rw [show reMatch (RAtom.lit c :: ps) (d :: s') = (charCI c d && reMatch ps s') from rfl]
        rw [show expand (RAtom.lit c :: ps) = (expand ps).map (c :: ·) from rfl]
        rw [List.any_map]
        rw [show ((fun w => ciMatchDollar w (d :: s')) ∘ (c :: ·))
            = fun w => charCI c d && ciMatchDollar w s' from rfl]
        rw [any_and_const, ih]
    | opt c =>
      cases s with
      | nil =>
        rw [show reMatch (RAtom.opt c :: ps) [] = reMatch ps [] from rfl]
        rw [show expand (RAtom.opt c :: ps) = ((expand ps).map (c :: ·) ++ expand ps) from rfl]
        rw [List.any_append, List.any_map]
        rw [show ((fun w => ciMatchDollar w []) ∘ (c :: ·)) = fun _ => false from rfl]
        rw [ih]
        simp
      | cons d s' =>
        rw [show reMatch (RAtom.opt c :: ps) (d :: s')
            = ((charCI c d && reMatch ps s') || reMatch ps (d :: s')) from rfl]
        rw [show expand (RAtom.opt c :: ps) = ((expand ps).map (c :: ·) ++ expand ps) from rfl]
        rw [List.any_append, List.any_map]
        rw [show ((fun w => ciMatchDollar w (d :: s')) ∘ (c :: ·))
            = fun w => charCI c d && ciMatchDollar w s' from rfl]
        rw [any_and_const, ih, ih]

/-- Characters are equal iff their code points are. -/
theorem char_eq_iff_toNat {c d : Char} : c = d ↔ c.toNat = d.toNat := by
  constructor
  · intro h
    rw [h]
  · intro h
    have he : Char.ofNat c.toNat = Char.ofNat d.toNat := by rw [h]
    rwa [Char.ofNat_toNat, Char.ofNat_toNat] at he

/-- A character fixed by `Char.toLower` is not an ASCII capital letter. -/
theorem not_upper_of_toLower_fixed {c : Char} (h : Char.toLower c = c) :
    ¬(65 ≤ c.toNat ∧ c.toNat ≤ 90) := by
  intro hc
  have h32 : (Char.toLower c).toNat = c.toNat + 32 := by
    unfold Char.toLower
    rw [if_pos ⟨hc.1, hc.2⟩]
    exact char_toNat_ofNat_of_lt _ (by omega)
  rw [h] at h32
  omega

/-- On lowercase-fixed characters with an ASCII input character,
case-insensitive matching is plain equality: the extra equivalents of i, s
and k are either capital or beyond ASCII. -/
theorem charCI_of_fixed {c d : Char} (hc : Char.toLower c = c)
    (hd : Char.toLower d = d) (hda : d.toNat < 128) :
    charCI c d = (c == d) := by
  have hdu := not_upper_of_toLower_fixed hd
  have hR : (c == d) = decide (c.toNat = d.toNat) := by
    by_cases he : c = d
    · subst he
      simp
    · have hne : c.toNat ≠ d.toNat := fun hn => he (char_eq_iff_toNat.mpr hn)
      simp [he, hne]
  have hd73 : d.toNat ≠ 73 := fun h73 => hdu ⟨by omega, by omega⟩
  have hd83 : d.toNat ≠ 83 := fun h83 => hdu ⟨by omega, by omega⟩
  have hd75 : d.toNat ≠ 75 := fun h75 => hdu ⟨by omega, by omega⟩
  unfold charCI
  by_cases h105 : c.toNat = 105
  · rw [if_pos h105, hR, h105, decide_eq_decide]
    omega
  · rw [if_neg h105]
    by_cases h115 : c.toNat = 115
    · rw [if_pos h115, hR, h115, decide_eq_decide]
      omega
    · rw [if_neg h115]
      by_cases h107 : c.toNat = 107
      · rw [if_pos h107, hR, h107, decide_eq_decide]
        omega
      · rw [if_neg h107, hc, hd]

/-- Against a lowercase ASCII input that does not end in whitespace, a
lowercase candidate matches literally iff it equals the input. -/
theorem ciMatchDollar_eq (w : List Char) : ∀ s : List Char,
    Py.lower w = w → Py.lower s = s → (∀ c ∈ s, c.toNat < 128) →
    (∀ x, s.getLast? = some x → Py.isSpaceChar x = false) →
    ciMatchDollar w s = decide (s = w) := by
  induction w with
  | nil =>
    intro s _ _ _ hlast
    cases s with
    | nil => rfl
    | cons d s' =>
      cases s' with
      | nil =>
        have hd := hlast d rfl
        have hne : d ≠ Char.ofNat 10 := by
          intro h
          rw [h] at hd
          exact absurd hd (by decide)
        rw [show ciMatchDollar [] [d] = (d == Char.ofNat 10) from rfl]
        simp [hne]
      | cons e s'' => rfl
  | cons c w' ih =>
    intro s hw hs hsa hlast
    cases s with
    | nil => rfl
    | cons d s' =>
      have hw' : Char.toLower c = c ∧ Py.lower w' = w' := by
        unfold Py.lower at hw
        rw [List.map_cons] at hw
        exact ⟨List.head_eq_of_cons_eq hw, List.tail_eq_of_cons_eq hw⟩
      have hs' : Char.toLower d = d ∧ Py.lower s' = s' := by
        unfold Py.lower at hs
        rw [List.map_cons] at hs
        exact ⟨List.head_eq_of_cons_eq hs, List.tail_eq_of_cons_eq hs⟩
      have hsa' : ∀ x ∈ s', x.toNat < 128 :=
        fun x hx => hsa x (List.mem_cons_of_mem d hx)
      have hlast' : ∀ x, s'.getLast? = some x → Py.isSpaceChar x = false := by
        intro x hx
        apply hlast
        cases s' with
        | nil => exact Option.noConfusion hx
        | cons e t => rw [List.getLast?_cons_cons]; exact hx
      rw [show ciMatchDollar (c :: w') (d :: s') = (charCI c d && ciMatchDollar w' s') from rfl]
      rw [charCI_of_fixed hw'.1 hs'.1 (hsa d (List.mem_cons_self d s')),
        ih s' hw'.2 hs'.2 hsa' hlast']
      by_cases h : d = c
      · subst h
        simp
      · simp [h, Ne.symm h]

/-- Testing equality against each member of a list with `List.any` is the
membership test. -/
theorem any_mem_decide {α : Type} [DecidableEq α] (a : α) (l : List α) :
    (l.any fun w => decide (a = w)) = decide (a ∈ l) := by
  induction l with
  | nil => rfl
  | cons b t ih =>
    rw [List.any_cons, ih]
    by_cases h : a = b
    · subst h
      simp
    · simp [h]

/-- The exit keywords: `exit_commands` in `is_exit_command`, defined
identically in src/hello.py lines 49-53 and src/hello_second.py lines
101-105. -/
def exit_commands : List (List Char) :=
  [str "exit", str "quit", str "q", str "bye", str "goodbye", str "stop", str "end"]

/-- Model of `is_exit_command`: membership of the normalized input in the
exit keyword list. -/
def is_exit_command (input_text : List Char) : Bool :=
  decide (normalize_input input_text ∈ exit_commands)

/-- The help keywords: `help_commands` in `is_help_command`, defined
identically in src/hello.py lines 55-59 and src/hello_second.py lines
107-111. -/
def help_commands : List (List Char) :=
  [str "help", str "?", str "commands", str "info", str "usage"]

/-- Model of `is_help_command`: membership of the normalized input in the
help keyword list. -/
def is_help_command (input_text : List Char) : Bool :=
  decide (normalize_input input_text ∈ help_commands)

/-- Python `d.get(k, dflt)` on an association-list model of a dict literal
with distinct keys. -/
def py_dict_get (d : List (List Char × List Char)) (k dflt : List Char) : List Char :=
  match d with
  | [] => dflt
  | (k2, v) :: rest => if k = k2 then v else py_dict_get rest k dflt

/-- The fallback response `responses.get` supplies when the normalized input
is not a key (`"Hello! Great to see you!"` in both scripts). -/
def fallback_response : List Char := str "Hello! Great to see you!"

/-- What one iteration of the `main` loop does with a line of input, by the
branch it takes: retry prompt for blank input (`if not user_input.strip()`),
farewell and loop exit, help listing, greeting response, or the retry hint
for unrecognized input. -/
inductive Outcome : Type
  | emptyRetry
  | terminate
  | showHelp
  | greeting
  | unrecognized
deriving DecidableEq

/-- A first match in the association list is returned by `py_dict_get`. -/
theorem py_dict_get_mem (d : List (List Char × List Char)) (k r dflt : List Char)
    (hnd : (d.map Prod.fst).Nodup) (hmem : (k, r) ∈ d) : py_dict_get d k dflt = r := by
  induction d with
  | nil => exact absurd hmem (List.not_mem_nil _)
  | cons kv rest ih =>
    obtain ⟨k2, v⟩ := kv
    rw [List.map_cons, List.nodup_cons] at hnd
    rw [py_dict_get]
    rcases List.mem_cons.mp hmem with h | h
    · cases h
      rw [if_pos rfl]
    · have hk : k ≠ k2 := by
        intro he
        subst he
        exact hnd.1 (List.mem_map.mpr ⟨(k, r), h, rfl⟩)
      rw [if_neg hk]
      exact ih hnd.2 h

/-- An input whose normalization lies in a list without the empty string has
a nonempty stripped form. -/
theorem strip_ne_nil_of_normalize_mem {s : List Char} {L : List (List Char)}
    (hmem : normalize_input s ∈ L) (hnil : [] ∉ L) : Py.strip s ≠ [] := by
  intro h
  apply hnil
  have he : normalize_input s = [] := by
    unfold normalize_input
    rw [h]
    rfl
  rwa [he] at hmem

/-- `List.any` over a mapped list, for maps that change the element type. -/
theorem any_map_general {α β : Type} (f : α → β) (p : β → Bool) (l : List α) :
    (l.map f).any p = l.any fun a => p (f a) := by
  induction l with
  | nil => rfl
  | cons a t ih => rw [List.map_cons, List.any_cons, List.any_cons, ih]

namespace Hello

/-- The `hello_patterns` of src/hello.py lines 24-39: every pattern is a
fixed anchored phrase `^phrase$`. -/
def hello_patterns : List (List RAtom) :=
  [lits "hello", lits "hi", lits "hey", lits "hello there", lits "good morning",
   lits "good afternoon", lits "good evening", lits "greetings", lits "salutations",
   lits "hola", lits "bonjour", lits "hallo", lits "ciao", lits "namaste"]

/-- Model of `is_hello_command` (src/hello.py lines 22-47): normalize, then
try `re.match(pattern, normalized, re.IGNORECASE)` for each pattern. -/
def is_hello_command (input_text : List Char) : Bool :=
  hello_patterns.any fun p => reMatch p (normalize_input input_text)

/-- The `responses` dict literal of `show_greeting` (src/hello.py lines
76-93). -/
def responses : List (List Char × List Char) :=
  [(str "hello", str "Hello! Welcome!"),
   (str "hi", str "Hi there! Nice to see you!"),
   (str "hey", str "Hey! How's it going?"),
   (str "hello there", str "Hello there! General Kenobi... 😉"),
   (str "good morning", str "Good morning! Rise and shine!"),
   (str "good afternoon", str "Good afternoon! Hope you're having a great day!"),
   (str "good evening", str "Good evening! How was your day?"),
   (str "greetings", str "Greetings and salutations!"),
   (str "salutations", str "Salutations! A pleasure to meet you!"),
   (str "hola", str "¡Hola! Bienvenido!"),
   (str "bonjour", str "Bonjour! Comment allez-vous?"),
   (str "hallo", str "Hallo! Wie geht's?"),
   (str "ciao", str "Ciao! Piacere di conoscerti!"),
   (str "namaste", str "Namaste! 🙏")]

/-- The keys of the `responses` dict: the phrase catalog of src/hello.py. -/
def response_keys : List (List Char) := responses.map Prod.fst

/-- Model of `show_greeting` (src/hello.py lines 74-97): the response string
it prints, `responses.get(normalized, "Hello! Great to see you!")`. -/
def show_greeting (input_text : List Char) : List Char :=
  py_dict_get responses (normalize_input input_text) fallback_response

/-- Model of one iteration of the `main` loop of src/hello.py lines 112-151:
which branch handles the line `user_input`. -/
def classify_line (user_input : List Char) : Outcome :=
  if Py.strip user_input = [] then Outcome.emptyRetry
  else if is_exit_command user_input then Outcome.terminate
  else if is_help_command user_input then Outcome.showHelp
  else if is_hello_command user_input then Outcome.greeting
  else Outcome.unrecognized

/-- All strings some pattern of src/hello.py can consume. -/
def hello_catalog : List (List Char) := (hello_patterns.map expand).flatten

/-- The classifier tests the normalized input against the finite catalog. -/
theorem hello_is_any_catalog (s : List Char) :
    is_hello_command s = hello_catalog.any fun w => ciMatchDollar w (normalize_input s) := by
  unfold is_hello_command hello_catalog
  rw [List.any_flatten, any_map_general]
  exact any_congr_mem fun p _ => reMatch_expand p (normalize_input s)

/-- For inputs whose normalization is ASCII, the classifier of src/hello.py
is the membership test in the key set of its own response catalog. -/
theorem hello_iff_keys (s : List Char)
    (ha : ∀ c ∈ normalize_input s, c.toNat < 128) :
    is_hello_command s = decide (normalize_input s ∈ response_keys) := by
  rw [hello_is_any_catalog]
  have hlow : ∀ w ∈ hello_catalog, Py.lower w = w := by decide
  rw [any_congr_mem fun w hw =>
    ciMatchDollar_eq w (normalize_input s) (hlow w hw) (lower_normalize s) ha
      (normalize_getLast_not s)]
  rw [any_mem_decide]
  rw [decide_eq_decide]
  constructor
  · intro h
    exact (by decide : ∀ w ∈ hello_catalog, w ∈ response_keys) _ h
  · intro h
    exact (by decide : ∀ w ∈ response_keys, w ∈ hello_catalog) _ h

end Hello

namespace HelloSecond

/-- The pattern `^what\'?s up$` of src/hello_second.py line 35: the escaped
apostrophe carries a `?` quantifier, so the apostrophe is optional. -/
def whats_up_pattern : List RAtom :=
  lits "what" ++ [RAtom.opt '\''] ++ lits "s up"

/-- The `hello_patterns` of src/hello_second.py lines 24-88, in source
order; every pattern except `^what\'?s up$` is a fixed anchored phrase. -/
def hello_patterns : List (List RAtom) :=
  [lits "hello", lits "hi", lits "hey", lits "hello there", lits "hi there",
   lits "hey there", lits "howdy", lits "yo", lits "sup",
   whats_up_pattern, lits "whats up", lits "wassup",
   lits "good morning", lits "good afternoon", lits "good evening", lits "good day",
   lits "greetings", lits "salutations", lits "welcome",
   lits "how are you", lits "how do you do", lits "pleased to meet you",
   lits "nice to meet you",
   lits "hola", lits "buenos dias", lits "buenas tardes", lits "buenas noches",
   lits "bonjour", lits "salut", lits "bonsoir",
   lits "hallo", lits "guten tag", lits "guten morgen",
   lits "ciao", lits "buongiorno", lits "buonasera",
   lits "oi", lits "ola", lits "bom dia",
   lits "namaste", lits "konnichiwa", lits "ni hao", lits "annyeong", lits "sawadee",
   lits "shalom", lits "salam", lits "jambo", lits "aloha", lits "ahoy",
   lits "privyet", lits "zdravo"]

/-- Model of `is_hello_command` (src/hello_second.py lines 22-99): normalize,
then try `re.match(pattern, normalized, re.IGNORECASE)` for each pattern. -/
def is_hello_command (input_text : List Char) : Bool :=
  hello_patterns.any fun p => reMatch p (normalize_input input_text)

/-- The `responses` dict literal of `show_greeting` (src/hello_second.py
lines 144-215). -/
def responses : List (List Char × List Char) :=
  [(str "hello", str "Hello! Welcome!"),
   (str "hi", str "Hi there! Nice to see you!"),
   (str "hey", str "Hey! How's it going?"),
   (str "hello there", str "Hello there! General Kenobi... 😉"),
   (str "hi there", str "Hi there! Wonderful to see you!"),
   (str "hey there", str "Hey there! What's happening?"),
   (str "howdy", str "Howdy, partner! 🤠"),
   (str "yo", str "Yo! What's good?"),
   (str "sup", str "Sup! How's everything?"),
   (str "what's up", str "Not much, you? What's up with you?"),
   (str "whats up", str "Not much, you? What's up with you?"),
   (str "wassup", str "Wassup! Everything cool?"),
   (str "good morning", str "Good morning! Rise and shine!"),
   (str "good afternoon", str "Good afternoon! Hope you're having a great day!"),
   (str "good evening", str "Good evening! How was your day?"),
   (str "good day", str "Good day! Wishing you the best!"),
   (str "greetings", str "Greetings and salutations!"),
   (str "salutations", str "Salutations! A pleasure to meet you!"),
   (str "welcome", str "Welcome! So glad you're here!"),
   (str "how are you", str "I'm doing great, thanks for asking! How are you?"),
   (str "how do you do", str "How do you do? Pleased to make your acquaintance!"),
   (str "pleased to meet you", str "Pleased to meet you too! The pleasure is mine!"),
   (str "nice to meet you", str "Nice to meet you as well! Great to connect!"),
   (str "hola", str "¡Hola! ¡Bienvenido!"),
   (str "buenos dias", str "¡Buenos días! ¡Que tengas un excelente día!"),
   (str "buenas tardes", str "¡Buenas tardes! ¿Cómo estás?"),
   (str "buenas noches", str "¡Buenas noches! Que descanses bien."),
   (str "bonjour", str "Bonjour! Comment allez-vous?"),
   (str "salut", str "Salut! Ça va?"),
   (str "bonsoir", str "Bonsoir! Bonne soirée!"),
   (str "hallo", str "Hallo! Wie geht's?"),
   (str "guten tag", str "Guten Tag! Wie geht es Ihnen?"),
   (str "guten morgen", str "Guten Morgen! Schönen Tag noch!"),
   (str "ciao", str "Ciao! Piacere di conoscerti!"),
   (str "buongiorno", str "Buongiorno! Come stai?"),
   (str "buonasera", str "Buonasera! Bella serata!"),
   (str "oi", str "Oi! Tudo bem?"),
   (str "ola", str "Olá! Como vai?"),
   (str "bom dia", str "Bom dia! Tenha um ótimo dia!"),
   (str "namaste", str "Namaste! 🙏"),
   (str "konnichiwa", str "こんにちは (Konnichiwa)! Welcome!"),
   (str "ni hao", str "你好 (Nǐ hǎo)! Hello!"),
   (str "annyeong", str "안녕 (Annyeong)! Hello!"),
   (str "sawadee", str "สวัสดี (Sawadee)! Welcome!"),
   (str "shalom", str "Shalom! שלום Peace be with you!"),
   (str "salam", str "As-salamu alaykum! السلام عليكم Peace!"),
   (str "jambo", str "Jambo! Habari gani?"),
   (str "aloha", str "Aloha! 🌺 Welcome to paradise!"),
   (str "ahoy", str "Ahoy there, matey! ⚓"),
   (str "privyet", str "Привет (Privyet)! Как дела?"),
   (str "zdravo", str "Zdravo! Kako si?")]

/-- The keys of the `responses` dict: the phrase catalog of
src/hello_second.py. -/
def response_keys : List (List Char) := responses.map Prod.fst

/-- Model of `show_greeting` (src/hello_second.py lines 144-219): the
response string it prints, `responses.get(normalized, "Hello! Great to see
you!")`. -/
def show_greeting (input_text : List Char) : List Char :=
  py_dict_get responses (normalize_input input_text) fallback_response

/-- Model of one iteration of the `main` loop of src/hello_second.py lines
232-271: which branch handles the line `user_input`. -/
def classify_line (user_input : List Char) : Outcome :=
  if Py.strip user_input = [] then Outcome.emptyRetry
  else if is_exit_command user_input then Outcome.terminate
  else if is_help_command user_input then Outcome.showHelp
  else if is_hello_command user_input then Outcome.greeting
  else Outcome.unrecognized

/-- All strings some pattern of src/hello_second.py can consume. -/
def hello_catalog : List (List Char) := (hello_patterns.map expand).flatten

/-- The classifier tests the normalized input against the finite catalog. -/
theorem second_is_any_catalog (s : List Char) :
    is_hello_command s = hello_catalog.any fun w => ciMatchDollar w (normalize_input s) := by
  unfold is_hello_command hello_catalog
  rw [List.any_flatten, any_map_general]
  exact any_congr_mem fun p _ => reMatch_expand p (normalize_input s)

/-- For inputs whose normalization is ASCII, the classifier of
src/hello_second.py is the membership test in the key set of its own
response catalog. -/
theorem second_iff_keys (s : List Char)
    (ha : ∀ c ∈ normalize_input s, c.toNat < 128) :
    is_hello_command s = decide (normalize_input s ∈ response_keys) := by
  rw [second_is_any_catalog]
  have hlow : ∀ w ∈ hello_catalog, Py.lower w = w := by decide
  rw [any_congr_mem fun w hw =>
    ciMatchDollar_eq w (normalize_input s) (hlow w hw) (lower_normalize s) ha
      (normalize_getLast_not s)]
  rw [any_mem_decide]
  rw [decide_eq_decide]
  constructor
  · intro h
    exact (by decide : ∀ w ∈ hello_catalog, w ∈ response_keys) _ h
  · intro h
    exact (by decide : ∀ w ∈ response_keys, w ∈ hello_catalog) _ h

end HelloSecond

namespace App

/-- The observable result of one call of a handler in src/app.py: the
response body, the HTTP status (Flask uses 200 for a bare string return,
and the second tuple component otherwise), and how many seconds the handler
sleeps before returning. -/
structure HttpResponse where
  body : String
  status : Nat
  sleepSeconds : Nat
deriving DecidableEq

/-- Model of `job_handler` (src/app.py lines 9-21).  The argument is
`request.args.get('jobname')`: `none` when the query parameter is absent. -/
def job_handler (jobname : Option String) : HttpResponse :=
  if jobname = some "normal" then { body := "0", status := 200, sleepSeconds := 0 }
  else if jobname = some "error" then { body := "1", status := 200, sleepSeconds := 0 }
  else if jobname = some "timeout" then { body := "0", status := 200, sleepSeconds := 3600 }
  else { body := "Invalid jobname", status := 400, sleepSeconds := 0 }

end App

/-- Dropping while `p` holds ignores a prefix on which `p` holds
throughout. -/
theorem dropWhile_append_all {α : Type} (p : α → Bool) (ws l : List α)
    (h : ∀ c ∈ ws, p c = true) : List.dropWhile p (ws ++ l) = List.dropWhile p l := by
  induction ws with
  | nil => rfl
  | cons a t ih =>
    rw [List.cons_append, List.dropWhile_cons, if_pos (h a (List.mem_cons_self a t))]
    exact ih fun c hc => h c (List.mem_cons_of_mem a hc)

/-- Whitespace padding on either side does not change the stripped string. -/
theorem strip_pad (ws1 u ws2 : List Char)
    (h1 : ∀ c ∈ ws1, Py.isSpaceChar c = true)
    (h2 : ∀ c ∈ ws2, Py.isSpaceChar c = true) :
    Py.strip (ws1 ++ u ++ ws2) = Py.strip u := by
  unfold Py.strip
  rw [List.append_assoc, dropWhile_append_all _ ws1 _ h1, List.dropWhile_append]
  by_cases hu : (List.dropWhile Py.isSpaceChar u).isEmpty
  · rw [if_pos hu, List.dropWhile_eq_nil_iff.mpr h2, List.isEmpty_iff.mp hu]
  · rw [if_neg hu, List.reverse_append,
      dropWhile_append_all _ ws2.reverse _ fun c hc => h2 c (List.mem_reverse.mp hc)]

/-- Normalizing a whitespace-padded case variant of an already-normalized
phrase recovers that phrase. -/
theorem normalize_variant (k u ws1 ws2 : List Char)
    (h1 : ∀ c ∈ ws1, Py.isSpaceChar c = true)
    (h2 : ∀ c ∈ ws2, Py.isSpaceChar c = true)
    (hu : Py.lower u = k) (hk : Py.strip k = k) :
    normalize_input (ws1 ++ u ++ ws2) = k := by
  unfold normalize_input
  rw [strip_pad _ _ _ h1 h2, ← strip_lower, hu, hk]

namespace Hello

/-- An exit keyword takes the second branch of the loop. -/
theorem hello_classify_of_exit {s : List Char} (h : is_exit_command s = true) :
    classify_line s = Outcome.terminate := by
  have hne : Py.strip s ≠ [] :=
    strip_ne_nil_of_normalize_mem (of_decide_eq_true h) (by decide)
  unfold classify_line
  rw [if_neg hne, if_pos h]

/-- A help keyword takes the third branch of the loop. -/
theorem hello_classify_of_help {s : List Char} (hex : is_exit_command s = false)
    (h : is_help_command s = true) : classify_line s = Outcome.showHelp := by
  have hne : Py.strip s ≠ [] :=
    strip_ne_nil_of_normalize_mem (of_decide_eq_true h) (by decide)
  unfold classify_line
  rw [if_neg hne, if_neg (by simp [hex]), if_pos h]

/-- A greeting phrase takes the fourth branch of the loop. -/
theorem hello_classify_of_hello {s : List Char} (hex : is_exit_command s = false)
    (hhelp : is_help_command s = false) (h : is_hello_command s = true) :
    classify_line s = Outcome.greeting := by
  have hne : Py.strip s ≠ [] := by
    intro hnil
    have hn : normalize_input s = [] := by
      unfold normalize_input
      rw [hnil]
      rfl
    unfold is_hello_command at h
    rw [hn] at h
    exact absurd h (by decide)
  unfold classify_line
  rw [if_neg hne, if_neg (by simp [hex]), if_neg (by simp [hhelp]), if_pos h]

/-- A line in none of the three sets reaches one of the two retry
prompts. -/
theorem hello_classify_of_none {s : List Char} (hex : is_exit_command s = false)
    (hhelp : is_help_command s = false) (hhello : is_hello_command s = false) :
    classify_line s = Outcome.unrecognized ∨ classify_line s = Outcome.emptyRetry := by
  unfold classify_line
  by_cases hs : Py.strip s = []
  · right
    rw [if_pos hs]
  · left
    rw [if_neg hs, if_neg (by simp [hex]), if_neg (by simp [hhelp]), if_neg (by simp [hhello])]

end Hello

namespace HelloSecond

/-- An exit keyword takes the second branch of the loop. -/
theorem second_classify_of_exit {s : List Char} (h : is_exit_command s = true) :
    classify_line s = Outcome.terminate := by
  have hne : Py.strip s ≠ [] :=
    strip_ne_nil_of_normalize_mem (of_decide_eq_true h) (by decide)
  unfold classify_line
  rw [if_neg hne, if_pos h]

/-- A help keyword takes the third branch of the loop. -/
theorem second_classify_of_help {s : List Char} (hex : is_exit_command s = false)
    (h : is_help_command s = true) : classify_line s = Outcome.showHelp := by
  have hne : Py.strip s ≠ [] :=
    strip_ne_nil_of_normalize_mem (of_decide_eq_true h) (by decide)
  unfold classify_line
  rw [if_neg hne, if_neg (by simp [hex]), if_pos h]

/-- A greeting phrase takes the fourth branch of the loop. -/
theorem second_classify_of_hello {s : List Char} (hex : is_exit_command s = false)
    (hhelp : is_help_command s = false) (h : is_hello_command s = true) :
    classify_line s = Outcome.greeting := by
  have hne : Py.strip s ≠ [] := by
    intro hnil
    have hn : normalize_input s = [] := by
      unfold normalize_input
      rw [hnil]
      rfl
    unfold is_hello_command at h
    rw [hn] at h
    exact absurd h (by decide)
  unfold classify_line
  rw [if_neg hne, if_neg (by simp [hex]), if_neg (by simp [hhelp]), if_pos h]

/-- A line in none of the three sets reaches one of the two retry
prompts. -/
theorem second_classify_of_none {s : List Char} (hex : is_exit_command s = false)
    (hhelp : is_help_command s = false) (hhello : is_hello_command s = false) :
    classify_line s = Outcome.unrecognized ∨ classify_line s = Outcome.emptyRetry := by
  unfold classify_line
  by_cases hs : Py.strip s = []
  · right
    rw [if_pos hs]
  · left
    rw [if_neg hs, if_neg (by simp [hex]), if_neg (by simp [hhelp]), if_neg (by simp [hhello])]

end HelloSecond

/-- C1: the result of a GET on `/job` is a function of the `jobname` query
parameter alone: `normal` returns body "0" with status 200, `error` returns
"1" with 200, `timeout` sleeps a fixed 3600 seconds and then returns "0"
with 200, and every other jobname value returns "Invalid jobname" with
status 400. -/
theorem C1_job_handler_by_jobname :
    App.job_handler (some "normal") = { body := "0", status := 200, sleepSeconds := 0 } ∧
    App.job_handler (some "error") = { body := "1", status := 200, sleepSeconds := 0 } ∧
    App.job_handler (some "timeout") = { body := "0", status := 200, sleepSeconds := 3600 } ∧
    ∀ j : String, j ≠ "normal" → j ≠ "error" → j ≠ "timeout" →
      App.job_handler (some j) = { body := "Invalid jobname", status := 400, sleepSeconds := 0 } := by
  refine ⟨by decide, by decide, by decide, ?_⟩
  intro j h1 h2 h3
  unfold App.job_handler
  rw [if_neg (by simpa using h1), if_neg (by simpa using h2), if_neg (by simpa using h3)]

/-- C1 witness: instantiating the unrecognized-jobname clause at "bogus". -/
theorem C1_job_handler_by_jobname_witness :
    App.job_handler (some "bogus")
      = { body := "Invalid jobname", status := 400, sleepSeconds := 0 } :=
  C1_job_handler_by_jobname.2.2.2 "bogus" (by decide) (by decide) (by decide)

/-- A pattern atom that is a plain literal (a fixed character, no
quantifier). -/
def litOnly : RAtom → Bool
  | RAtom.lit _ => true
  | RAtom.opt _ => false

/-- C2 counterexample: the claim fails on the code in both respects.  At
the concrete input "hı" (dotless ı, U+0131) the pattern `^hi$` matches
under re.IGNORECASE in both scripts while the normalized input is not a
catalog key, so the asserted biconditional is false; and the pattern
`^what\'?s up$` of src/hello_second.py carries a `?` quantifier on the
escaped apostrophe, so not every pattern is a fixed anchored phrase of
plain literals. -/
theorem C2_counterexample_optional_atom :
    (Hello.is_hello_command (str "hı") = true ∧
      decide (normalize_input (str "hı") ∈ Hello.response_keys) = false) ∧
    (HelloSecond.is_hello_command (str "hı") = true ∧
      decide (normalize_input (str "hı") ∈ HelloSecond.response_keys) = false) ∧
    (HelloSecond.hello_patterns.all fun p => p.all litOnly) = false ∧
    HelloSecond.whats_up_pattern.all litOnly = false :=
  ⟨⟨by decide, by decide⟩, ⟨by decide, by decide⟩, by decide, by decide⟩

/-- C2 (amended): restricted to ASCII inputs, where the embedding of strip,
lower and `re.IGNORECASE` is exact, `is_hello_command` in both scripts is
extensionally the membership test of the normalized input in the key set of
the script's own response catalog.  Every pattern of src/hello.py is a
fixed anchored literal phrase; in src/hello_second.py all patterns except
`^what\'?s up$` are, and that one expands to exactly the two catalog keys
"what's up" and "whats up".  Beyond ASCII the equivalence fails, because
re.IGNORECASE also matches the Unicode case equivalents ı and ſ, which
normalization does not map to catalog keys (see the counterexample). -/
theorem C2_classifier_eq_membership :
    (∀ s : List Char, (∀ c ∈ s, c.toNat < 128) →
      Hello.is_hello_command s = decide (normalize_input s ∈ Hello.response_keys)) ∧
    (∀ s : List Char, (∀ c ∈ s, c.toNat < 128) →
      HelloSecond.is_hello_command s
        = decide (normalize_input s ∈ HelloSecond.response_keys)) ∧
    (Hello.hello_patterns.all fun p => p.all litOnly) = true ∧
    expand HelloSecond.whats_up_pattern = [str "what's up", str "whats up"] :=
  ⟨fun s hs => Hello.hello_iff_keys s (normalize_ascii hs),
   fun s hs => HelloSecond.second_iff_keys s (normalize_ascii hs),
   by decide, by decide⟩

/-- C2 witness: the equivalences instantiated at the ASCII inputs " Hello "
(a catalog phrase) and "zzz" (not one). -/
theorem C2_classifier_eq_membership_witness :
    (Hello.is_hello_command (str " Hello ")
      = decide (normalize_input (str " Hello ") ∈ Hello.response_keys)) ∧
    (HelloSecond.is_hello_command (str "zzz")
      = decide (normalize_input (str "zzz") ∈ HelloSecond.response_keys)) :=
  ⟨C2_classifier_eq_membership.1 (str " Hello ") (by decide),
   C2_classifier_eq_membership.2.1 (str "zzz") (by decide)⟩

/-- C3: for every key of the response catalog of src/hello_second.py, every
variant of it obtained by changing letter case and adding leading or
trailing whitespace is classified as a greeting, and `show_greeting` on the
variant produces exactly the response associated with that key. -/
theorem C3_variant_greeting :
    ∀ k r ws1 u ws2 : List Char,
      (k, r) ∈ HelloSecond.responses →
      (∀ c ∈ ws1, Py.isSpaceChar c = true) →
      (∀ c ∈ ws2, Py.isSpaceChar c = true) →
      Py.lower u = k →
      HelloSecond.is_hello_command (ws1 ++ u ++ ws2) = true ∧
      HelloSecond.show_greeting (ws1 ++ u ++ ws2) = r := by
  intro k r ws1 u ws2 hmem h1 h2 hu
  have hk : Py.strip k = k :=
    (by decide : ∀ kv ∈ HelloSecond.responses, Py.strip kv.1 = kv.1) (k, r) hmem
  have hn : normalize_input (ws1 ++ u ++ ws2) = k := normalize_variant k u ws1 ws2 h1 h2 hu hk
  have ha : ∀ c ∈ normalize_input (ws1 ++ u ++ ws2), c.toNat < 128 := by
    rw [hn]
    exact (by decide : ∀ kv ∈ HelloSecond.responses, ∀ c ∈ kv.1, c.toNat < 128) (k, r) hmem
  constructor
  · rw [HelloSecond.second_iff_keys _ ha, hn]
    exact decide_eq_true (List.mem_map.mpr ⟨(k, r), hmem, rfl⟩)
  · unfold HelloSecond.show_greeting
    rw [hn]
    exact py_dict_get_mem _ _ _ _ (by decide) hmem

/-- C3 witness: the variant "  HeLLo " of the key "hello" matches and gets
that key's response. -/
theorem C3_variant_greeting_witness :
    HelloSecond.is_hello_command (str "  " ++ str "HeLLo" ++ str " ") = true ∧
    HelloSecond.show_greeting (str "  " ++ str "HeLLo" ++ str " ") = str "Hello! Welcome!" :=
  C3_variant_greeting (str "hello") (str "Hello! Welcome!") (str "  ") (str "HeLLo")
    (str " ") (by decide) (by decide) (by decide) (by decide)

/-- C4 counterexample: the claim fails on the code at the concrete input
"ſup" (long ſ, U+017F): under re.IGNORECASE the pattern `^sup$` matches, so
the classifier reports a greeting, yet the normalized input is not a key of
the responses table and `show_greeting` produces exactly the generic
fallback string. -/
theorem C4_counterexample_long_s :
    HelloSecond.is_hello_command (str "ſup") = true ∧
    decide (normalize_input (str "ſup") ∈ HelloSecond.response_keys) = false ∧
    HelloSecond.show_greeting (str "ſup") = fallback_response :=
  ⟨by decide, by decide, by decide⟩

/-- C4 (amended): for ASCII inputs, whenever src/hello_second.py's
classifier reports a greeting the normalized input is a key of the
responses table, `show_greeting` answers with that key's response, and the
generic fallback string is never produced.  The guarantee fails only for
non-ASCII inputs that match through re.IGNORECASE's Unicode case
equivalents (ı, ſ), where the dict lookup misses and the fallback appears
(see the counterexample). -/
theorem C4_no_fallback_for_greetings :
    ∀ s : List Char, (∀ c ∈ s, c.toNat < 128) →
      HelloSecond.is_hello_command s = true →
      normalize_input s ∈ HelloSecond.response_keys ∧
      HelloSecond.show_greeting s ≠ fallback_response ∧
      ∃ r, (normalize_input s, r) ∈ HelloSecond.responses ∧
        HelloSecond.show_greeting s = r := by
  intro s hascii hs
  rw [HelloSecond.second_iff_keys s (normalize_ascii hascii), decide_eq_true_eq] at hs
  obtain ⟨⟨k, r⟩, hkr, hk⟩ := List.mem_map.mp hs
  simp only at hk
  subst hk
  have hsg : HelloSecond.show_greeting s = r := by
    unfold HelloSecond.show_greeting
    exact py_dict_get_mem _ _ _ _ (by decide) hkr
  refine ⟨hs, ?_, r, hkr, hsg⟩
  rw [hsg]
  exact (by decide : ∀ kv ∈ HelloSecond.responses, kv.2 ≠ fallback_response) _ hkr

/-- C4 witness: instantiating at the ASCII input "Hola". -/
theorem C4_no_fallback_for_greetings_witness :
    normalize_input (str "Hola") ∈ HelloSecond.response_keys ∧
    HelloSecond.show_greeting (str "Hola") ≠ fallback_response ∧
    ∃ r, (normalize_input (str "Hola"), r) ∈ HelloSecond.responses ∧
      HelloSecond.show_greeting (str "Hola") = r :=
  C4_no_fallback_for_greetings (str "Hola") (by decide) (by decide)

/-- C5: each line is tested in the fixed order exit set, help set, phrase
catalog, with a retry prompt otherwise, in both scripts; an input in an
earlier set is never classified by a later check.  (The blank-line guard
precedes the three checks but no member of any set is blank, so it diverts
none of them; a line in no set gets the blank-input retry prompt when blank
and the unrecognized-input one otherwise.) -/
theorem C5_check_order :
    (∀ s : List Char,
      (is_exit_command s = true → Hello.classify_line s = Outcome.terminate) ∧
      (is_exit_command s = false → is_help_command s = true →
        Hello.classify_line s = Outcome.showHelp) ∧
      (is_exit_command s = false → is_help_command s = false →
        Hello.is_hello_command s = true → Hello.classify_line s = Outcome.greeting) ∧
      (is_exit_command s = false → is_help_command s = false →
        Hello.is_hello_command s = false →
        Hello.classify_line s = Outcome.unrecognized ∨
          Hello.classify_line s = Outcome.emptyRetry)) ∧
    (∀ s : List Char,
      (is_exit_command s = true → HelloSecond.classify_line s = Outcome.terminate) ∧
      (is_exit_command s = false → is_help_command s = true →
        HelloSecond.classify_line s = Outcome.showHelp) ∧
      (is_exit_command s = false → is_help_command s = false →
        HelloSecond.is_hello_command s = true →
        HelloSecond.classify_line s = Outcome.greeting) ∧
      (is_exit_command s = false → is_help_command s = false →
        HelloSecond.is_hello_command s = false →
        HelloSecond.classify_line s = Outcome.unrecognized ∨
          HelloSecond.classify_line s = Outcome.emptyRetry)) :=
  ⟨fun _ => ⟨fun h => Hello.hello_classify_of_exit h,
     fun hex h => Hello.hello_classify_of_help hex h,
     fun hex hh h => Hello.hello_classify_of_hello hex hh h,
     fun hex hh hhe => Hello.hello_classify_of_none hex hh hhe⟩,
   fun _ => ⟨fun h => HelloSecond.second_classify_of_exit h,
     fun hex h => HelloSecond.second_classify_of_help hex h,
     fun hex hh h => HelloSecond.second_classify_of_hello hex hh h,
     fun hex hh hhe => HelloSecond.second_classify_of_none hex hh hhe⟩⟩

/-- C5 witness: one concrete line per branch, in both scripts. -/
theorem C5_check_order_witness :
    Hello.classify_line (str "quit") = Outcome.terminate ∧
    Hello.classify_line (str "help") = Outcome.showHelp ∧
    Hello.classify_line (str "hey") = Outcome.greeting ∧
    (Hello.classify_line (str "xyzzy") = Outcome.unrecognized ∨
      Hello.classify_line (str "xyzzy") = Outcome.emptyRetry) ∧
    HelloSecond.classify_line (str "howdy") = Outcome.greeting :=
  ⟨(C5_check_order.1 (str "quit")).1 (by decide),
   (C5_check_order.1 (str "help")).2.1 (by decide) (by decide),
   (C5_check_order.1 (str "hey")).2.2.1 (by decide) (by decide) (by decide),
   (C5_check_order.1 (str "xyzzy")).2.2.2 (by decide) (by decide) (by decide),
   (C5_check_order.2 (str "howdy")).2.2.1 (by decide) (by decide) (by decide)⟩

/-- C6: every exit keyword, in any letter case and padded with whitespace,
is recognized by is_exit_command, and the loop then terminates. -/
theorem C6_exit_keywords_terminate :
    ∀ k ws1 u ws2 : List Char,
      k ∈ exit_commands →
      (∀ c ∈ ws1, Py.isSpaceChar c = true) →
      (∀ c ∈ ws2, Py.isSpaceChar c = true) →
      Py.lower u = k →
      is_exit_command (ws1 ++ u ++ ws2) = true ∧
      Hello.classify_line (ws1 ++ u ++ ws2) = Outcome.terminate := by
  intro k ws1 u ws2 hk h1 h2 hu
  have hstrip : Py.strip k = k :=
    (by decide : ∀ x ∈ exit_commands, Py.strip x = x) k hk
  have hn : normalize_input (ws1 ++ u ++ ws2) = k :=
    normalize_variant k u ws1 ws2 h1 h2 hu hstrip
  have hex : is_exit_command (ws1 ++ u ++ ws2) = true := by
    unfold is_exit_command
    rw [hn]
    exact decide_eq_true hk
  exact ⟨hex, Hello.hello_classify_of_exit hex⟩

/-- C6 witness: the variant " BYE " of the exit keyword "bye". -/
theorem C6_exit_keywords_terminate_witness :
    is_exit_command (str " " ++ str "BYE" ++ str " ") = true ∧
    Hello.classify_line (str " " ++ str "BYE" ++ str " ") = Outcome.terminate :=
  C6_exit_keywords_terminate (str "bye") (str " ") (str "BYE") (str " ")
    (by decide) (by decide) (by decide) (by decide)

/-- C7: is_help_command holds for exactly the five help keywords, and the
loop reaches the help listing for "help" and for "?". -/
theorem C7_help_keywords :
    (∀ s : List Char, is_help_command s = decide (normalize_input s ∈ help_commands)) ∧
    help_commands = [str "help", str "?", str "commands", str "info", str "usage"] ∧
    Hello.classify_line (str "help") = Outcome.showHelp ∧
    Hello.classify_line (str "?") = Outcome.showHelp :=
  ⟨fun _ => rfl, rfl, by decide, by decide⟩

/-- C8: a blank line (empty or whitespace-only) fails all three classifiers
and reaches the blank-line retry prompt: the loop prints a prompt to retry
and keeps running rather than crashing or terminating. -/
theorem C8_blank_input :
    ∀ s : List Char, (∀ c ∈ s, Py.isSpaceChar c = true) →
      is_exit_command s = false ∧ is_help_command s = false ∧
      HelloSecond.is_hello_command s = false ∧
      HelloSecond.classify_line s = Outcome.emptyRetry ∧
      HelloSecond.classify_line s ≠ Outcome.terminate := by
  intro s h
  have hstrip : Py.strip s = [] := by
    unfold Py.strip
    rw [List.dropWhile_eq_nil_iff.mpr h]
    rfl
  have hn : normalize_input s = [] := by
    unfold normalize_input
    rw [hstrip]
    rfl
  have hcl : HelloSecond.classify_line s = Outcome.emptyRetry := by
    unfold HelloSecond.classify_line
    rw [if_pos hstrip]
  refine ⟨?_, ?_, ?_, hcl, ?_⟩
  · unfold is_exit_command
    rw [hn]
    decide
  · unfold is_help_command
    rw [hn]
    decide
  · rw [HelloSecond.second_iff_keys s (by
        rw [hn]
        intro c hc
        exact absurd hc (List.not_mem_nil c)), hn]
    decide
  · rw [hcl]
    decide

/-- C8 witness: a line of three spaces. -/
theorem C8_blank_input_witness :
    is_exit_command (str "   ") = false ∧ is_help_command (str "   ") = false ∧
    HelloSecond.is_hello_command (str "   ") = false ∧
    HelloSecond.classify_line (str "   ") = Outcome.emptyRetry ∧
    HelloSecond.classify_line (str "   ") ≠ Outcome.terminate :=
  C8_blank_input (str "   ") (by decide)

/-- C9: normalization is idempotent: normalizing an already-normalized
string returns it unchanged. -/
theorem C9_normalize_idempotent :
    ∀ s : List Char, normalize_input (normalize_input s) = normalize_input s := by
  intro s
  unfold normalize_input
  rw [strip_lower, strip_strip, lower_lower]

/-- C10: a GET on `/job` with no jobname parameter reads the absent value
`none`, which matches none of the three recognized names, so the handler
returns "Invalid jobname" with status 400. -/
theorem C10_absent_jobname :
    App.job_handler none = { body := "Invalid jobname", status := 400, sleepSeconds := 0 } := by
  decide
